import Mathlib

/-!
Shallow embedding of src/internal/ebpf/c/tcpretrans.bpf.c.

The probe attaches to kprobe/tcp_retransmit_skb.  On each invocation it
reads fields of the socket's `struct sock_common` with CO-RE reads
(`BPF_CORE_READ`), builds a `struct event`, and, when `read_sock_common`
returns nonzero, emits the event once via `bpf_perf_event_output`.

Modelling decisions:
- Machine integers are `Nat`; the kernel field widths (u16 family/ports,
  u32 addresses, u8 state) are recorded as hypotheses where a claim needs
  them.
- A `BPF_CORE_READ` that fails (structure-layout mismatch) zeroes its
  destination and the macro yields that zeroed value; the generated code
  never checks the helper's return value.  We model this with a
  `Readability` oracle: `coreRead ok v` is `v` when the field is readable
  and `0` otherwise.
- The per-CPU perf buffer is modelled as the list of records emitted by
  one invocation (`bpf_perf_event_output` appends one record).
- `bpf_get_current_pid_tgid` and `bpf_get_current_comm` read the current
  task, modelled by a `Task` value.
-/

namespace TcpRetrans

/-- Linux address-family constant for IPv4 sockets (from the kernel headers). -/
def AF_INET : Nat := 2

/-- Linux address-family constant for IPv6 sockets (from the kernel headers). -/
def AF_INET6 : Nat := 10

/-- Snapshot of the kernel `struct sock_common` fields the probe reads. -/
structure SockCommon where
  skc_family : Nat
  skc_rcv_saddr : Nat
  skc_daddr : Nat
  skc_num : Nat
  skc_dport : Nat
  skc_state : Nat
deriving DecidableEq

/-- The current task as seen by the bpf helpers: the u64 returned by
bpf_get_current_pid_tgid and the bytes copied by bpf_get_current_comm. -/
structure Task where
  pid_tgid : Nat
  comm : List Nat
deriving DecidableEq

/-- Which sock_common fields the CO-RE relocation reads can actually read
on the running kernel.  `false` means the read fails and yields zero. -/
structure Readability where
  family : Bool
  rcv_saddr : Bool
  daddr : Bool
  num : Bool
  dport : Bool
  state : Bool
deriving DecidableEq

/-- The run where every relocation-safe field read succeeds. -/
def allReadable : Readability :=
  { family := true, rcv_saddr := true, daddr := true, num := true,
    dport := true, state := true }

/-- BPF_CORE_READ of one field: the field value when the relocation read
succeeds, and 0 (the zeroed destination) when it fails. -/
def coreRead (ok : Bool) (v : Nat) : Nat :=
  if ok then v else 0

/-- bpf_ntohs: swap the two bytes of a 16-bit value. -/
def bpf_ntohs (x : Nat) : Nat :=
  x % 256 * 256 + x / 256 % 256

/-- struct event from tcpretrans.bpf.c (type: 1=v4, 2=v6). -/
structure Event where
  pid : Nat
  saddr : Nat
  daddr : Nat
  lport : Nat
  dport : Nat
  state : Nat
  type : Nat
  comm : List Nat
deriving DecidableEq

/-- read_sock_common from tcpretrans.bpf.c.  The caller zero-initialises
the event; pid and comm are always filled in, then the family discriminant
decides the path.  IPv4 sets type 1, reads both addresses and both ports
(byte-swapping dport) and the state, and returns 1.  IPv6 sets type 2 and
returns 0 before reading anything further; any other family returns 0.
The returned pair is (return value, event buffer after the call). -/
def read_sock_common (r : Readability) (skc : SockCommon) (t : Task) :
    Nat × Event :=
  if coreRead r.family skc.skc_family = AF_INET then
    (1, { pid := t.pid_tgid / 2 ^ 32, comm := t.comm.take 16, type := 1,
          saddr := coreRead r.rcv_saddr skc.skc_rcv_saddr,
          daddr := coreRead r.daddr skc.skc_daddr,
          lport := coreRead r.num skc.skc_num,
          dport := bpf_ntohs (coreRead r.dport skc.skc_dport),
          state := coreRead r.state skc.skc_state })
  else if coreRead r.family skc.skc_family = AF_INET6 then
    (0, { pid := t.pid_tgid / 2 ^ 32, comm := t.comm.take 16, type := 2,
          saddr := 0, daddr := 0, lport := 0, dport := 0, state := 0 })
  else
    (0, { pid := t.pid_tgid / 2 ^ 32, comm := t.comm.take 16, type := 0,
          saddr := 0, daddr := 0, lport := 0, dport := 0, state := 0 })

/-- The kprobe handler tcp_retransmit_skb: calls read_sock_common on the
zero-initialised stack event and, when it returns nonzero, emits the event
once to the perf buffer; it returns 0 in every case.  The result is
(handler return value, records emitted to the Delivery Channel). -/
def tcp_retransmit_skb (r : Readability) (skc : SockCommon) (t : Task) :
    Nat × List Event :=
  if (read_sock_common r skc t).1 ≠ 0 then
    (0, [(read_sock_common r skc t).2])
  else
    (0, [])

/-- Number of BPF_CORE_READ field reads executed by read_sock_common on a
given input, following its control flow: the IPv4 path reads family, both
addresses, both ports and the state (6 reads); the IPv6 path and the
default path read only the family (1 read). -/
def read_sock_common_core_reads (r : Readability) (skc : SockCommon) : Nat :=
  if coreRead r.family skc.skc_family = AF_INET then 6 else 1

/-- The loopback connection of the spec's end-to-end scenario:
127.0.0.1:5000 to 127.0.0.1:40000, state 1 (TCP_ESTABLISHED).
16777343 is 127.0.0.1 in network byte order read as a little-endian u32;
16540 is port 40000 (0x9c40) in network byte order read as a
little-endian u16, so its bpf_ntohs is 40000. -/
def skcV4 : SockCommon :=
  { skc_family := 2, skc_rcv_saddr := 16777343, skc_daddr := 16777343,
    skc_num := 5000, skc_dport := 16540, skc_state := 1 }

/-- A second snapshot with the same field values as skcV4. -/
def skcV4b : SockCommon :=
  { skc_family := 2, skc_rcv_saddr := 16777343, skc_daddr := 16777343,
    skc_num := 5000, skc_dport := 16540, skc_state := 1 }

/-- An IPv6 socket snapshot (family 10). -/
def skcV6 : SockCommon :=
  { skc_family := 10, skc_rcv_saddr := 0, skc_daddr := 0,
    skc_num := 443, skc_dport := 20480, skc_state := 1 }

/-- A sample current task: pid 1234, tid 5678, comm bytes of a name. -/
def task0 : Task :=
  { pid_tgid := 1234 * 2 ^ 32 + 5678, comm := [99, 117, 114, 108] }

/-- A different sample task: pid 42, another comm. -/
def task1 : Task :=
  { pid_tgid := 42 * 2 ^ 32 + 42, comm := [115, 115, 104] }

/-- The readability oracle of the C8 counterexample: every field readable
except the local (rcv_saddr) address. -/
def rNoSaddr : Readability :=
  { family := true, rcv_saddr := false, daddr := true, num := true,
    dport := true, state := true }

/-- A readability oracle whose family read fails (yields 0). -/
def rNoFamily : Readability :=
  { family := false, rcv_saddr := true, daddr := true, num := true,
    dport := true, state := true }

/-- The event emitted for skcV4 under allReadable, by task0. -/
def evV4 : Event := (read_sock_common allReadable skcV4 task0).2

/-- Projection of an event to its connection fields, dropping the
process-identity fields pid and comm. -/
def connFields (e : Event) : Nat × Nat × Nat × Nat × Nat :=
  (e.saddr, e.daddr, e.lport, e.dport, e.state)

/-- Characterisation of one invocation: the handler emits the fully
populated IPv4 record exactly when the family read yields AF_INET, and
nothing otherwise. -/
theorem tcp_retransmit_skb_emissions (r : Readability) (skc : SockCommon)
    (t : Task) :
    (tcp_retransmit_skb r skc t).2 =
      if coreRead r.family skc.skc_family = AF_INET then
        [{ pid := t.pid_tgid / 2 ^ 32, comm := t.comm.take 16, type := 1,
           saddr := coreRead r.rcv_saddr skc.skc_rcv_saddr,
           daddr := coreRead r.daddr skc.skc_daddr,
           lport := coreRead r.num skc.skc_num,
           dport := bpf_ntohs (coreRead r.dport skc.skc_dport),
           state := coreRead r.state skc.skc_state }]
      else [] := by
  unfold tcp_retransmit_skb read_sock_common
  by_cases h1 : coreRead r.family skc.skc_family = AF_INET
  · simp [h1]
  · by_cases h2 : coreRead r.family skc.skc_family = AF_INET6
    · simp [h2, AF_INET, AF_INET6]
    · simp [h1, h2]

/-- Characterisation of the handler return value: 0 on every input. -/
theorem tcp_retransmit_skb_ret (r : Readability) (skc : SockCommon)
    (t : Task) : (tcp_retransmit_skb r skc t).1 = 0 := by
  unfold tcp_retransmit_skb
  split <;> rfl

/-- Claim C1: when the socket's address-family field is AF_INET (and that
field is readable), the handler emits exactly one record to the Delivery
Channel and its address-family tag is 1. -/
theorem c1_ipv4_emits_one_tag1 (r : Readability) (skc : SockCommon)
    (t : Task) (hr : r.family = true) (hf : skc.skc_family = AF_INET) :
    (tcp_retransmit_skb r skc t).2.length = 1 ∧
      ∀ e ∈ (tcp_retransmit_skb r skc t).2, e.type = 1 := by
  rw [tcp_retransmit_skb_emissions]
  simp [coreRead, hr, hf]

/-- Witness for C1 at the loopback IPv4 snapshot. -/
theorem c1_ipv4_emits_one_tag1_witness :
    (tcp_retransmit_skb allReadable skcV4 task0).2.length = 1 ∧
      ∀ e ∈ (tcp_retransmit_skb allReadable skcV4 task0).2, e.type = 1 :=
  c1_ipv4_emits_one_tag1 allReadable skcV4 task0 rfl rfl

/-- Claim C2: when the socket's address-family field is not AF_INET
(IPv6 or any other family), the handler emits no record at all. -/
theorem c2_non_ipv4_emits_nothing (r : Readability) (skc : SockCommon)
    (t : Task) (hf : skc.skc_family ≠ AF_INET) :
    (tcp_retransmit_skb r skc t).2 = [] := by
  have hobs : coreRead r.family skc.skc_family ≠ AF_INET := by
    cases hfam : r.family
    · simp only [coreRead, hfam, Bool.false_eq_true, if_false]
      decide
    · simpa [coreRead, hfam] using hf
  rw [tcp_retransmit_skb_emissions]
  simp [hobs]

/-- Witness for C2 at the IPv6 snapshot. -/
theorem c2_non_ipv4_emits_nothing_witness :
    (tcp_retransmit_skb allReadable skcV6 task0).2 = [] :=
  c2_non_ipv4_emits_nothing allReadable skcV6 task0 (by decide)

/-- Claim C3: every record that reaches the Delivery Channel is the fully
populated IPv4 record (every field is set from the capture) and its
address-family tag is exactly 1, hence never 2 nor any value outside
the set containing 1 and 2. -/
theorem c3_delivered_records_full_tag1 (r : Readability) (skc : SockCommon)
    (t : Task) (e : Event) (he : e ∈ (tcp_retransmit_skb r skc t).2) :
    e.type = 1 ∧
      e.pid = t.pid_tgid / 2 ^ 32 ∧
      e.comm = t.comm.take 16 ∧
      e.saddr = coreRead r.rcv_saddr skc.skc_rcv_saddr ∧
      e.daddr = coreRead r.daddr skc.skc_daddr ∧
      e.lport = coreRead r.num skc.skc_num ∧
      e.dport = bpf_ntohs (coreRead r.dport skc.skc_dport) ∧
      e.state = coreRead r.state skc.skc_state := by
  rw [tcp_retransmit_skb_emissions] at he
  by_cases h1 : coreRead r.family skc.skc_family = AF_INET
  · rw [if_pos h1] at he
    simp only [List.mem_singleton] at he
    subst he
    simp
  · rw [if_neg h1] at he
    simp at he

/-- Witness for C3 at the loopback IPv4 snapshot. -/
theorem c3_delivered_records_full_tag1_witness :
    evV4.type = 1 ∧
      evV4.pid = task0.pid_tgid / 2 ^ 32 ∧
      evV4.comm = task0.comm.take 16 ∧
      evV4.saddr = coreRead allReadable.rcv_saddr skcV4.skc_rcv_saddr ∧
      evV4.daddr = coreRead allReadable.daddr skcV4.skc_daddr ∧
      evV4.lport = coreRead allReadable.num skcV4.skc_num ∧
      evV4.dport = bpf_ntohs (coreRead allReadable.dport skcV4.skc_dport) ∧
      evV4.state = coreRead allReadable.state skcV4.skc_state :=
  c3_delivered_records_full_tag1 allReadable skcV4 task0 evV4 (by decide)

/-- Claim C4: in every emitted record (all reads succeeding), the remote
port is the byte-swap of the raw kernel skc_dport, while the local port
and both addresses are copied from the socket structure verbatim. -/
theorem c4_byte_order (skc : SockCommon) (t : Task) (e : Event)
    (he : e ∈ (tcp_retransmit_skb allReadable skc t).2) :
    e.dport = bpf_ntohs skc.skc_dport ∧
      e.lport = skc.skc_num ∧
      e.saddr = skc.skc_rcv_saddr ∧
      e.daddr = skc.skc_daddr := by
  rw [tcp_retransmit_skb_emissions] at he
  by_cases h1 : coreRead allReadable.family skc.skc_family = AF_INET
  · rw [if_pos h1] at he
    simp only [List.mem_singleton] at he
    subst he
    simp [allReadable, coreRead]
  · rw [if_neg h1] at he
    simp at he

/-- Witness for C4: at the loopback snapshot the emitted remote port is
40000, the byte-swap of the raw value 16540. -/
theorem c4_byte_order_witness :
    evV4.dport = bpf_ntohs skcV4.skc_dport ∧
      evV4.lport = skcV4.skc_num ∧
      evV4.saddr = skcV4.skc_rcv_saddr ∧
      evV4.daddr = skcV4.skc_daddr :=
  c4_byte_order skcV4 task0 evV4 (by decide)

/-- Claim C5: capturing twice from the same socket state yields the same
emission decision and records identical in the source address,
destination address, local port, remote port and connection-state
fields; only the process-identity fields may differ. -/
theorem c5_capture_idempotent (r : Readability) (skc : SockCommon)
    (t t' : Task) :
    (tcp_retransmit_skb r skc t).2.length =
        (tcp_retransmit_skb r skc t').2.length ∧
      (tcp_retransmit_skb r skc t).2.map connFields =
        (tcp_retransmit_skb r skc t').2.map connFields := by
  rw [tcp_retransmit_skb_emissions, tcp_retransmit_skb_emissions]
  by_cases h1 : coreRead r.family skc.skc_family = AF_INET <;>
    simp [h1, connFields]

/-- Claim C6: the handler returns 0 to the kernel on every invocation,
whatever the address family and whether or not a record was emitted. -/
theorem c6_returns_zero (r : Readability) (skc : SockCommon) (t : Task) :
    (tcp_retransmit_skb r skc t).1 = 0 :=
  tcp_retransmit_skb_ret r skc t

/-- Claim C7: the number of relocation-safe kernel field reads performed
by one probe invocation is statically bounded (at most 6, reached on the
IPv4 path), for every input; the embedding itself is a structurally total
function, so every invocation terminates. -/
theorem c7_bounded_field_reads (r : Readability) (skc : SockCommon) :
    read_sock_common_core_reads r skc ≤ 6 := by
  unfold read_sock_common_core_reads
  split <;> decide

/-- Claim C8 counterexample: with the family field readable as AF_INET but
the local-address field unreadable, the probe still emits one record (the
unreadable field arrives zeroed), so an unreadable address field does not
suppress emission. -/
theorem c8_counterexample :
    rNoSaddr.rcv_saddr = false ∧
      (tcp_retransmit_skb rNoSaddr skcV4 task0).2.length = 1 ∧
      ∀ e ∈ (tcp_retransmit_skb rNoSaddr skcV4 task0).2, e.saddr = 0 := by
  decide

/-- Claim C8 as amended: only the family read gates emission.  If the
family field is unreadable (it reads as 0), no record is emitted; if the
family reads as AF_INET, a record is emitted regardless of which other
fields are readable, each address or port field carrying the relocation
read's result (0 when that read failed). -/
theorem c8_amended_family_gates_emission (r : Readability)
    (skc : SockCommon) (t : Task) :
    (r.family = false → (tcp_retransmit_skb r skc t).2 = []) ∧
      (r.family = true → skc.skc_family = AF_INET →
        (tcp_retransmit_skb r skc t).2.length = 1 ∧
          ∀ e ∈ (tcp_retransmit_skb r skc t).2,
            e.saddr = coreRead r.rcv_saddr skc.skc_rcv_saddr ∧
              e.daddr = coreRead r.daddr skc.skc_daddr ∧
              e.lport = coreRead r.num skc.skc_num ∧
              e.dport = bpf_ntohs (coreRead r.dport skc.skc_dport)) := by
  rw [tcp_retransmit_skb_emissions]
  constructor
  · intro hf
    simp [coreRead, hf, AF_INET]
  · intro hr hf
    simp [coreRead, hr, hf]

/-- Witness for the amended C8: an unreadable family suppresses emission,
and with the family readable the record is emitted even though the
local-address read fails. -/
theorem c8_amended_family_gates_emission_witness :
    (tcp_retransmit_skb rNoFamily skcV4 task0).2 = [] ∧
      (tcp_retransmit_skb rNoSaddr skcV4 task0).2.length = 1 :=
  ⟨(c8_amended_family_gates_emission rNoFamily skcV4 task0).1 rfl,
   ((c8_amended_family_gates_emission rNoSaddr skcV4 task0).2 rfl rfl).1⟩

/-- Claim C9: the 32-bit connection-state field of every emitted record
holds a value in the range 0 to 255, because it is read from the
single-byte kernel field skc_state and zero-extended. -/
theorem c9_state_fits_one_byte (r : Readability) (skc : SockCommon)
    (t : Task) (e : Event) (hb : skc.skc_state < 256)
    (he : e ∈ (tcp_retransmit_skb r skc t).2) :
    e.state < 256 := by
  rw [tcp_retransmit_skb_emissions] at he
  by_cases h1 : coreRead r.family skc.skc_family = AF_INET
  · rw [if_pos h1] at he
    simp only [List.mem_singleton] at he
    subst he
    simp only [coreRead]
    split
    · exact hb
    · omega
  · rw [if_neg h1] at he
    simp at he

/-- Witness for C9 at the loopback IPv4 snapshot (skc_state is 1). -/
theorem c9_state_fits_one_byte_witness : evV4.state < 256 :=
  c9_state_fits_one_byte allReadable skcV4 task0 evV4 (by decide) (by decide)

/-- Claim C10: determinism of the probe.  Two invocations that observe the
same sock_common field values (same relocation-read results for every
field) and the same current-task identity (same pid and command name)
produce identical outcomes: the same return value and byte-for-byte
identical emitted records. -/
theorem c10_deterministic (r r' : Readability) (skc skc' : SockCommon)
    (t t' : Task)
    (hfam : coreRead r.family skc.skc_family =
      coreRead r'.family skc'.skc_family)
    (hsaddr : coreRead r.rcv_saddr skc.skc_rcv_saddr =
      coreRead r'.rcv_saddr skc'.skc_rcv_saddr)
    (hdaddr : coreRead r.daddr skc.skc_daddr =
      coreRead r'.daddr skc'.skc_daddr)
    (hnum : coreRead r.num skc.skc_num = coreRead r'.num skc'.skc_num)
    (hdport : coreRead r.dport skc.skc_dport =
      coreRead r'.dport skc'.skc_dport)
    (hstate : coreRead r.state skc.skc_state =
      coreRead r'.state skc'.skc_state)
    (hpid : t.pid_tgid / 2 ^ 32 = t'.pid_tgid / 2 ^ 32)
    (hcomm : t.comm = t'.comm) :
    tcp_retransmit_skb r skc t = tcp_retransmit_skb r' skc' t' := by
  unfold tcp_retransmit_skb read_sock_common
  rw [hfam, hsaddr, hdaddr, hnum, hdport, hstate, hpid, hcomm]

/-- Witness for C10: two snapshots with equal field values give identical
outcomes. -/
theorem c10_deterministic_witness :
    tcp_retransmit_skb allReadable skcV4 task0 =
      tcp_retransmit_skb allReadable skcV4b task0 :=
  c10_deterministic allReadable allReadable skcV4 skcV4b task0 task0
    rfl rfl rfl rfl rfl rfl rfl rfl

end TcpRetrans
